import Mathlib

/-!
Verification development for the Virtual-ai-debate client.

Shallow embedding of the pure logic of the repository's components:
* `FeedbackPage.tsx` — the star-rating computation and its category/message tables;
* `LiveDebate.tsx` — performance-summary extraction (`endDebate`), the
  speech-recognition result handler, and an event-level model of the
  AI-response request lifecycle (generate / cancel / resolve / retry) and of
  session termination;
* `Navigation.tsx` and the app shell (`App.tsx`) — the two session-validation
  guards and their effect on the durable `user` / `token` storage entries.

Machine integers do not matter here (all counts are small naturals); JS number
arithmetic on ratings and average response time is modelled over `ℚ`.
-/

namespace VirtualDebate

/-! ### Rating computation, from `FeedbackPage.tsx` (rating `useEffect`) -/

/-- JS `Math.round`: round half towards positive infinity, `⌊x + 1/2⌋`. -/
def jsRound (q : ℚ) : ℤ := ⌊q + 1/2⌋

/-- `calculatedRating` from `FeedbackPage.tsx`: base 2, `+1` for more than 5
messages, `+1` for more than 10 messages, `+0.5` for more than 50 words,
`+0.5` for more than 100 words. -/
def calculatedRating (totalMessages totalWords : ℕ) : ℚ :=
  2 + (if totalMessages > 5 then 1 else 0)
    + (if totalMessages > 10 then 1 else 0)
    + (if totalWords > 50 then 1/2 else 0)
    + (if totalWords > 100 then 1/2 else 0)

/-- `finalRating` from `FeedbackPage.tsx`:
`Math.min(5, Math.max(1, Math.round(calculatedRating)))`. -/
def finalRating (totalMessages totalWords : ℕ) : ℤ :=
  min 5 (max 1 (jsRound (calculatedRating totalMessages totalWords)))

/-- `getRatingCategory` from `FeedbackPage.tsx` (the `switch` on stars). -/
def getRatingCategory (stars : ℤ) : String :=
  if stars = 1 then "Needs Improvement"
  else if stars = 2 then "Poor Communication"
  else if stars = 3 then "Fair Effort"
  else if stars = 4 then "Good Clarity & Response"
  else if stars = 5 then "Excellent Engagement"
  else "Needs Improvement"

/-- `getRatingMessage` from `FeedbackPage.tsx` (the `switch` on stars). -/
def getRatingMessage (stars : ℤ) : String :=
  if stars = 1 then "Keep practicing! Every debate is a learning opportunity."
  else if stars = 2 then "Good effort! Work on expanding your arguments."
  else if stars = 3 then "Fair performance! Try to engage more actively."
  else if stars = 4 then "Great job! Your communication skills are improving."
  else if stars = 5 then "Excellent performance! Outstanding engagement and clarity."
  else "Keep practicing!"

/-- Spec-side rating, written from the specification's words: "round(2 +
(1 if totalMessages > 5) + (1 if totalMessages > 10) + (0.5 if totalWords > 50)
+ (0.5 if totalWords > 100)) clamped to [1,5]". Defined independently of
`finalRating` for the refinement comparison. -/
def ratingSpec (totalMessages totalWords : ℕ) : ℤ :=
  let r := jsRound ((2 : ℚ)
    + (if totalMessages > 5 then 1 else 0)
    + (if totalMessages > 10 then 1 else 0)
    + (if totalWords > 50 then (1 : ℚ)/2 else 0)
    + (if totalWords > 100 then (1 : ℚ)/2 else 0))
  if r < 1 then 1 else if 5 < r then 5 else r

lemma calculatedRating_ge_two (m w : ℕ) : 2 ≤ calculatedRating m w := by
  unfold calculatedRating
  split_ifs <;> norm_num

lemma calculatedRating_le_five (m w : ℕ) : calculatedRating m w ≤ 5 := by
  unfold calculatedRating
  split_ifs <;> norm_num

lemma jsRound_calculated_ge_two (m w : ℕ) :
    2 ≤ jsRound (calculatedRating m w) := by
  have h := calculatedRating_ge_two m w
  unfold jsRound
  exact Int.le_floor.mpr (by push_cast; linarith)

lemma jsRound_calculated_le_five (m w : ℕ) :
    jsRound (calculatedRating m w) ≤ 5 := by
  have h := calculatedRating_le_five m w
  unfold jsRound
  have : ⌊calculatedRating m w + 1/2⌋ < 6 := Int.floor_lt.mpr (by push_cast; linarith)
  omega

lemma finalRating_eq_jsRound (m w : ℕ) :
    finalRating m w = jsRound (calculatedRating m w) := by
  unfold finalRating
  have h2 := jsRound_calculated_ge_two m w
  have h5 := jsRound_calculated_le_five m w
  rw [max_eq_right (by omega), min_eq_right h5]

lemma ite_indicator_mono {p q : Prop} [Decidable p] [Decidable q]
    (c : ℚ) (hc : 0 ≤ c) (hpq : p → q) :
    (if p then c else 0) ≤ (if q then c else 0) := by
  split_ifs with h1 h2
  · exact le_refl c
  · exact absurd (hpq h1) h2
  · exact hc
  · exact le_refl 0

lemma calculatedRating_mono {m m' w w' : ℕ} (hm : m ≤ m') (hw : w ≤ w') :
    calculatedRating m w ≤ calculatedRating m' w' := by
  unfold calculatedRating
  have h1 := ite_indicator_mono (p := m > 5) (q := m' > 5) 1 (by norm_num)
    (fun h => lt_of_lt_of_le h hm)
  have h2 := ite_indicator_mono (p := m > 10) (q := m' > 10) 1 (by norm_num)
    (fun h => lt_of_lt_of_le h hm)
  have h3 := ite_indicator_mono (p := w > 50) (q := w' > 50) (1/2) (by norm_num)
    (fun h => lt_of_lt_of_le h hw)
  have h4 := ite_indicator_mono (p := w > 100) (q := w' > 100) (1/2) (by norm_num)
    (fun h => lt_of_lt_of_le h hw)
  linarith

/-! ### Transcript and performance summary, from `LiveDebate.tsx` -/

/-- Message speaker: `"user" | "ai"`. -/
inductive Speaker
  | user
  | ai
deriving DecidableEq, Repr

/-- `DebateMessage` from `LiveDebate.tsx`; the timestamp is abstracted to a
natural number. -/
structure DebateMessage where
  speaker : Speaker
  message : String
  timestamp : ℕ
deriving DecidableEq, Repr

/-- JS `String.prototype.split` with the single-character separator `' '`,
on the underlying character list: splits at every space, keeping empty
fields (so `"" ↦ [""]`, `"a  b" ↦ ["a", "", "b"]`). -/
def jsSplit : List Char → List (List Char)
  | [] => [[]]
  | c :: cs =>
    let rest := jsSplit cs
    if c = ' ' then [] :: rest
    else (c :: rest.headI) :: rest.tail

/-- `msg.split(" ").length` for a string. -/
def splitSpaceLen (s : String) : ℕ := (jsSplit s.data).length

/-- `messages.filter((m) => m.speaker === "user")` from `endDebate`. -/
def userMessages (msgs : List DebateMessage) : List DebateMessage :=
  msgs.filter (fun m => m.speaker = Speaker.user)

/-- `userMessages.reduce((acc, msg) => acc + msg.message.split(" ").length, 0)`
from `endDebate` in `LiveDebate.tsx`. -/
def totalWords (msgs : List DebateMessage) : ℕ :=
  (userMessages msgs).foldl (fun acc msg => acc + splitSpaceLen msg.message) 0

/-- Spec-side word count, from the specification's words: the number of
whitespace-delimited tokens of a string (split on whitespace, empty pieces
dropped). Defined for the refinement comparison with `splitSpaceLen`. -/
def wsTokenCount (s : String) : ℕ :=
  ((s.data.splitOnP (fun c => c.isWhitespace)).filter (fun t => ¬t.isEmpty)).length

/-- Spec-side `totalWords`: sum of whitespace-delimited token counts of
user-speaker messages only. -/
def totalWordsSpec (msgs : List DebateMessage) : ℕ :=
  ((userMessages msgs).map (fun m => wsTokenCount m.message)).sum

lemma jsSplit_ne_nil (l : List Char) : jsSplit l ≠ [] := by
  cases l with
  | nil => simp [jsSplit]
  | cons c cs =>
    unfold jsSplit
    split_ifs <;> simp

lemma jsSplit_length (l : List Char) : (jsSplit l).length = l.count ' ' + 1 := by
  induction l with
  | nil => simp [jsSplit]
  | cons c cs ih =>
    unfold jsSplit
    have hne := jsSplit_ne_nil cs
    have hpos : 1 ≤ (jsSplit cs).length := List.length_pos.mpr hne
    split_ifs with hc
    · simp [List.count_cons, hc, ih]
    · have : (c :: cs).count ' ' = cs.count ' ' := by
        simp [List.count_cons, hc]
      simp only [List.length_cons, List.length_tail, this, ← ih]
      omega

lemma foldl_add_splitSpaceLen (l : List DebateMessage) (a : ℕ) :
    l.foldl (fun acc msg => acc + splitSpaceLen msg.message) a
      = a + (l.map (fun msg => splitSpaceLen msg.message)).sum := by
  induction l generalizing a with
  | nil => simp
  | cons x xs ih =>
    simp only [List.foldl_cons, List.map_cons, List.sum_cons, ih]
    omega

lemma userMessages_append_ai (msgs : List DebateMessage) (txt : String) (ts : ℕ) :
    userMessages (msgs ++ [⟨Speaker.ai, txt, ts⟩]) = userMessages msgs := by
  unfold userMessages
  rw [List.filter_append]
  simp

/-- `DebateState` from `LiveDebate.tsx` (the debate configuration). -/
structure DebateState where
  topic : String
  duration : ℕ
  stance : String
  level : String
deriving DecidableEq, Repr

/-- `PerformanceData` from `LiveDebate.tsx`; the average response time is a
rational number. -/
structure PerformanceData where
  totalMessages : ℕ
  totalWords : ℕ
  avgResponseTime : ℚ
  topic : String
  duration : ℕ
  level : String
deriving DecidableEq, Repr

/-- The `performanceData` object built in `endDebate` of `LiveDebate.tsx`,
as a function of the transcript, the remaining time, and the configuration. -/
def performanceData (msgs : List DebateMessage) (timeRemaining : ℚ)
    (ds : DebateState) : PerformanceData :=
  let um := userMessages msgs
  { totalMessages := um.length
    totalWords := totalWords msgs
    avgResponseTime := if um.length > 0 then timeRemaining / um.length else 0
    topic := ds.topic
    duration := ds.duration
    level := ds.level }

/-! ### Event-level model of the live-debate controller (`LiveDebate.tsx`)

The controller is single-threaded and event-driven: each `async` function runs
synchronously up to its `await fetch`, and the continuation after the `await`
runs atomically when the fetch settles.  The model below has one function per
such atomic step.  A `fetch` is represented by a `Request` carrying the id of
the `AbortController` it was created with; a fetch may settle successfully
only if its controller was not aborted, and settles with an `AbortError`
exactly when it was (these enabledness conditions appear as hypotheses of the
theorems, or hold by construction in concrete traces). -/

/-- An outstanding `fetch` to `/debate/response`, tagged with the id of the
`AbortController` it was created with and the `retries` argument of the
`generateAIResponse` call that issued it. -/
structure Request where
  cid : ℕ
  userMessage : String
  retries : ℕ
deriving DecidableEq, Repr

/-- Non-abort failure kinds distinguished by `handleAIResponseError`. -/
inductive FailKind
  | cors
  | network
  | other
deriving DecidableEq, Repr

/-- The live-debate controller state: the component state hooks, the refs
(`abortControllerRef`, `timerRef`), the set of aborted controllers, the
outstanding fetches, the retries scheduled by `setTimeout`, and the
navigation performed by `endDebate`. -/
structure DebateSim where
  ds : DebateState
  messages : List DebateMessage
  nextCid : ℕ
  current : Option ℕ
  aborted : List ℕ
  inFlight : List Request
  pendingRetries : List (String × ℕ)
  isLoadingResponse : Bool
  isAISpeaking : Bool
  error : Option String
  currentTranscript : String
  noSpeechRetryCount : ℕ
  isListening : Bool
  timeRemaining : ℕ
  timerActive : Bool
  isDebateEnding : Bool
  navigated : Option PerformanceData
deriving DecidableEq, Repr

/-- Initial controller state for a configured debate. -/
def initSim (ds : DebateState) : DebateSim :=
  { ds := ds
    messages := []
    nextCid := 0
    current := none
    aborted := []
    inFlight := []
    pendingRetries := []
    isLoadingResponse := false
    isAISpeaking := false
    error := none
    currentTranscript := ""
    noSpeechRetryCount := 0
    isListening := false
    timeRemaining := ds.duration * 60
    timerActive := true
    isDebateEnding := false
    navigated := none }

/-- The synchronous prefix of `generateAIResponse` in `LiveDebate.tsx`: the
input guard, the status flags, and the creation of a fresh `AbortController`
(which overwrites `abortControllerRef.current` WITHOUT aborting the previous
controller) before the `fetch` is issued.  The configuration is always
present in the model, so the `!debateState` half of the guard is omitted. -/
def generateAIResponse (s : DebateSim) (userMessage : String) (retries : ℕ) :
    DebateSim :=
  if userMessage.length < 3 then
    { s with error := some "Invalid input or debate configuration." }
  else
    { s with isAISpeaking := true
             isLoadingResponse := true
             error := none
             current := some s.nextCid
             inFlight := s.inFlight ++ [⟨s.nextCid, userMessage, retries⟩]
             nextCid := s.nextCid + 1 }

/-- `addUserMessage` from `LiveDebate.tsx`: append the user message, then call
`generateAIResponse` with the default `retries = 2`. -/
def addUserMessage (s : DebateSim) (msg : String) (ts : ℕ) : DebateSim :=
  generateAIResponse
    { s with messages := s.messages ++ [⟨Speaker.user, msg, ts⟩] } msg 2

/-- The `finally` block of `generateAIResponse`. -/
def finallyReset (s : DebateSim) : DebateSim :=
  { s with isAISpeaking := false
           isLoadingResponse := false
           current := none }

/-- The fetch of request `r` settles successfully with reply text `reply`
(nonempty `data.message`): exactly one AI message is appended, then the
`finally` block runs.  Enabled only when `r` is in flight and its controller
was not aborted. -/
def resolveSuccess (s : DebateSim) (r : Request) (reply : String) (ts : ℕ) :
    DebateSim :=
  finallyReset
    { s with messages := s.messages ++ [⟨Speaker.ai, reply, ts⟩]
             inFlight := s.inFlight.erase r }

/-- The `AbortError` branch of `handleAIResponseError`: with retries left, a
retry of `generateAIResponse` is scheduled via `setTimeout` and the handler
returns (no `setError`); with none left, "Request timed out." is surfaced. -/
def handleAbortError (s : DebateSim) (r : Request) : DebateSim :=
  if 0 < r.retries then
    { s with pendingRetries := s.pendingRetries ++ [(r.userMessage, r.retries - 1)] }
  else
    { s with error := some "Request timed out." }

/-- The fetch of request `r` rejects with an `AbortError` (its controller was
aborted): `handleAIResponseError` runs, then the `finally` block. -/
def resolveAborted (s : DebateSim) (r : Request) : DebateSim :=
  finallyReset (handleAbortError { s with inFlight := s.inFlight.erase r } r)

/-- The error notice chosen by the non-abort branches of
`handleAIResponseError`. -/
def failMessage : FailKind → String
  | .cors => "CORS error. Please check server configuration."
  | .network => "Network error. Please check your connection."
  | .other => "Failed to get AI response."

/-- The fetch of request `r` rejects with a non-abort error: the notice is
surfaced, nothing is appended and no retry is scheduled, then the `finally`
block runs. -/
def resolveFailure (s : DebateSim) (r : Request) (k : FailKind) : DebateSim :=
  finallyReset
    { s with inFlight := s.inFlight.erase r
             error := some (failMessage k) }

/-- A `setTimeout`-scheduled retry fires: `generateAIResponse` is re-invoked
with the saved message and decremented retry budget. -/
def runRetry (s : DebateSim) : DebateSim :=
  match s.pendingRetries with
  | [] => s
  | (msg, k) :: rest => generateAIResponse { s with pendingRetries := rest } msg k

/-- `cancelAIResponse` from `LiveDebate.tsx`: abort the current controller if
there is one (when there is none, `current` is already `none`, so setting it
unconditionally is equivalent to the guarded assignment in the source), stop
the status flags, and show the cancellation notice. -/
def cancelAIResponse (s : DebateSim) : DebateSim :=
  { s with aborted := match s.current with
             | some cid => s.aborted ++ [cid]
             | none => s.aborted
           current := none
           isAISpeaking := false
           isLoadingResponse := false
           error := some "AI response cancelled." }

/-- `endDebate` from `LiveDebate.tsx`: guarded by `isDebateEnding`; stops
recognition, cancels any in-flight request, stops the timer, computes the
performance summary and navigates to the feedback screen with it.  The
best-effort `/debate/complete` POST has no effect on the controller state and
is not modelled. -/
def endDebate (s : DebateSim) : DebateSim :=
  if s.isDebateEnding then s
  else
    let s1 := { s with isDebateEnding := true, isListening := false }
    let s2 := cancelAIResponse s1
    let s3 := { s2 with timerActive := false }
    { s3 with
        navigated := some (performanceData s3.messages (s3.timeRemaining : ℚ) s3.ds) }

/-- One firing of the one-second interval from the timer `useEffect`: at
`DEBATE_END_BUFFER_SECONDS = 5` or below, the interval is cleared, `endDebate`
runs, and the remaining time is set to 0; otherwise the countdown decrements. -/
def tick (s : DebateSim) : DebateSim :=
  if s.timerActive then
    if s.timeRemaining ≤ 5 then
      { endDebate { s with timerActive := false } with timeRemaining := 0 }
    else { s with timeRemaining := s.timeRemaining - 1 }
  else s

/-- JS `String.prototype.trim`: strip leading and trailing whitespace,
embedded on the underlying character list. -/
def jsTrim (s : String) : String :=
  ⟨((s.data.dropWhile Char.isWhitespace).reverse.dropWhile Char.isWhitespace).reverse⟩

/-- `recognition.onresult` from `LiveDebate.tsx`, for one event carrying a
list of `(transcript, isFinal)` results: interim transcripts are concatenated
into the live display; final transcripts are concatenated with a trailing
space each, and if the concatenation is nonempty its trim is either appended
as a user message (length ≥ 3, which also issues the AI-response request) or
rejected with an error. -/
def onresult (s : DebateSim) (results : List (String × Bool)) (ts : ℕ) :
    DebateSim :=
  let interim := results.foldl (fun acc r => if r.2 then acc else acc ++ r.1) ""
  let finalT := results.foldl (fun acc r => if r.2 then acc ++ r.1 ++ " " else acc) ""
  let s1 := { s with currentTranscript := interim }
  if finalT ≠ "" then
    let tr := jsTrim finalT
    if 3 ≤ tr.length then
      addUserMessage { s1 with currentTranscript := "", noSpeechRetryCount := 0 } tr ts
    else
      { s1 with error := some "Speech input too short. Please provide a longer argument." }
  else s1

/-- A concrete debate configuration used by the concrete traces below. -/
def dsEx : DebateState := ⟨"AI in schools", 5, "Support", "Beginner"⟩

/-! ### Session guards, from `Navigation.tsx` and the app shell (`App.tsx`)

Durable client storage holds the `user` entry (modelled by the cached email,
`none` when absent or without an email) and the `token` entry.  Each guard
reads the cached user, and if an email is present calls the profile endpoint;
the possible outcomes of that call are a success carrying a user object, a
rejection (non-ok response or missing `user` field), and a thrown network
error. -/

/-- The durable `localStorage` entries the guards touch. -/
structure Store where
  user : Option String
  token : Option String
deriving DecidableEq, Repr

/-- Outcome of the `/profile` call. -/
inductive ProfileResult
  | ok (name picture : String)
  | rejected
  | networkError
deriving DecidableEq, Repr

/-- Result of running a session guard: the storage afterwards, the navigation
target if any, the toast notice if any, and the resulting logged-in flag. -/
structure GuardOutcome where
  store : Store
  navigatedTo : Option String
  notice : Option String
  isLoggedIn : Bool
deriving DecidableEq, Repr

/-- `validateSession` from `Navigation.tsx`: on a non-ok or user-less profile
response it removes ONLY the `user` entry (`localStorage.removeItem("user")`),
shows "Session Expired" and navigates to `/login`; on a thrown error it
likewise removes only `user`, shows "Session Error" and navigates to
`/login`; on success it refreshes the cached user fields. -/
def navValidateSession (st : Store) (pr : ProfileResult) : GuardOutcome :=
  match st.user with
  | none => ⟨st, none, none, false⟩
  | some email =>
    match pr with
    | .ok _ _ => ⟨{ st with user := some email }, none, none, true⟩
    | .rejected => ⟨{ st with user := none }, some "/login", some "Session Expired", false⟩
    | .networkError => ⟨{ st with user := none }, some "/login", some "Session Error", false⟩

/-- `validateSession` from the app shell (`AppContent` in `App.tsx`): on a
failed profile result it removes BOTH `user` and `token`, shows a notice and
navigates to `/login`; on success it leaves storage unchanged. -/
def appValidateSession (st : Store) (pr : ProfileResult) : GuardOutcome :=
  match st.user with
  | none => ⟨st, none, none, false⟩
  | some _ =>
    match pr with
    | .ok _ _ => ⟨st, none, none, true⟩
    | .rejected =>
        ⟨{ st with user := none, token := none }, some "/login", some "Session Expired", false⟩
    | .networkError =>
        ⟨{ st with user := none, token := none }, some "/login", some "Session Error", false⟩

/-- Trace state for the request-overwrite counterexample: two consecutive
user turns, the second started while the first request is still in flight. -/
def twoTurns : DebateSim :=
  addUserMessage (addUserMessage (initSim dsEx) "hello there" 0) "second point" 1

/-- C1 counterexample: starting a new AI-response request while one is
outstanding does NOT abort the previous request.  After two consecutive user
turns, no controller has been aborted, the first turn's request is still in
flight, and it can still settle successfully and append its AI message. -/
theorem new_request_does_not_cancel_previous :
    twoTurns.aborted = [] ∧
    (⟨0, "hello there", 2⟩ : Request) ∈ twoTurns.inFlight ∧
    (⟨1, "second point", 2⟩ : Request) ∈ twoTurns.inFlight ∧
    (resolveSuccess twoTurns ⟨0, "hello there", 2⟩ "I disagree entirely" 2).messages
      = [⟨Speaker.user, "hello there", 0⟩, ⟨Speaker.user, "second point", 1⟩,
         ⟨Speaker.ai, "I disagree entirely", 2⟩] := by
  refine ⟨?_, ?_, ?_, ?_⟩ <;> decide

/-- C1 amended: each request cycle appends at most one AI message (exactly one
on a successful settlement, none on any failure), but starting a new request
does not abort the outstanding one — `generateAIResponse` overwrites the
controller reference without aborting, leaving the previous request in
flight. -/
theorem request_lifecycle (s : DebateSim) (msg : String) (k : ℕ)
    (h : 3 ≤ msg.length) (r : Request) (reply : String) (ts : ℕ) (fk : FailKind) :
    (generateAIResponse s msg k).aborted = s.aborted ∧
    (generateAIResponse s msg k).inFlight = s.inFlight ++ [⟨s.nextCid, msg, k⟩] ∧
    (generateAIResponse s msg k).messages = s.messages ∧
    (resolveSuccess s r reply ts).messages = s.messages ++ [⟨Speaker.ai, reply, ts⟩] ∧
    (resolveAborted s r).messages = s.messages ∧
    (resolveFailure s r fk).messages = s.messages := by
  have hg : ¬ msg.length < 3 := by omega
  refine ⟨?_, ?_, ?_, ?_, ?_, ?_⟩
  · simp [generateAIResponse, hg]
  · simp [generateAIResponse, hg]
  · simp [generateAIResponse, hg]
  · simp [resolveSuccess, finallyReset]
  · unfold resolveAborted finallyReset handleAbortError
    split <;> rfl
  · simp [resolveFailure, finallyReset]

/-- Witness for C1 amended at concrete inputs. -/
theorem request_lifecycle_witness :
    3 ≤ ("hello there" : String).length ∧
    ((generateAIResponse (initSim dsEx) "hello there" 2).aborted = (initSim dsEx).aborted ∧
     (generateAIResponse (initSim dsEx) "hello there" 2).inFlight
       = (initSim dsEx).inFlight ++ [⟨(initSim dsEx).nextCid, "hello there", 2⟩] ∧
     (generateAIResponse (initSim dsEx) "hello there" 2).messages = (initSim dsEx).messages ∧
     (resolveSuccess (initSim dsEx) ⟨5, "earlier point", 1⟩ "a rebuttal" 9).messages
       = (initSim dsEx).messages ++ [⟨Speaker.ai, "a rebuttal", 9⟩] ∧
     (resolveAborted (initSim dsEx) ⟨5, "earlier point", 1⟩).messages = (initSim dsEx).messages ∧
     (resolveFailure (initSim dsEx) ⟨5, "earlier point", 1⟩ FailKind.network).messages
       = (initSim dsEx).messages) :=
  ⟨by decide,
   request_lifecycle (initSim dsEx) "hello there" 2 (by decide)
     ⟨5, "earlier point", 1⟩ "a rebuttal" 9 FailKind.network⟩

/-- Trace states for the cancelled-request-retry counterexample. -/
def cancelTrace1 : DebateSim := addUserMessage (initSim dsEx) "hello there" 0

/-- The state after the user cancels the in-flight request. -/
def cancelTrace2 : DebateSim := cancelAIResponse cancelTrace1

/-- The state after the aborted fetch rejects and the handler runs. -/
def cancelTrace3 : DebateSim := resolveAborted cancelTrace2 ⟨0, "hello there", 2⟩

/-- C4 counterexample: a request that fails because it was cancelled IS
retried automatically — the `AbortError` handler cannot distinguish
cancellation from timeout (the code installs no timeout at all), so after an
explicit cancel the aborted fetch schedules a retry, the retry clears the
"AI response cancelled." notice, and the retried request can append an AI
message for the cancelled turn. -/
theorem cancelled_request_retried :
    cancelTrace2.aborted = [0] ∧
    cancelTrace2.error = some "AI response cancelled." ∧
    cancelTrace3.pendingRetries = [("hello there", 1)] ∧
    cancelTrace3.error = some "AI response cancelled." ∧
    (runRetry cancelTrace3).error = none ∧
    (resolveSuccess (runRetry cancelTrace3) ⟨1, "hello there", 1⟩ "a rebuttal" 1).messages
      = [⟨Speaker.user, "hello there", 0⟩, ⟨Speaker.ai, "a rebuttal", 1⟩] := by
  refine ⟨?_, ?_, ?_, ?_, ?_, ?_⟩ <;> decide

/-- C4 amended: an abort-error failure (whose only source in this code is
explicit cancellation — no timeout is installed) is handled as a timeout:
with retries remaining a retry is scheduled and no notice is set by the
handler; with none remaining, "Request timed out." is surfaced.  The
"AI response cancelled." notice comes from the cancel action itself.
Non-abort failures are surfaced once, without retry, and append nothing. -/
theorem abort_error_handling (s : DebateSim) (cid : ℕ) (msg : String) (k : ℕ)
    (r : Request) (fk : FailKind) :
    (resolveAborted s ⟨cid, msg, k + 1⟩).pendingRetries
      = s.pendingRetries ++ [(msg, k)] ∧
    (resolveAborted s ⟨cid, msg, k + 1⟩).messages = s.messages ∧
    (resolveAborted s ⟨cid, msg, k + 1⟩).error = s.error ∧
    (resolveAborted s ⟨cid, msg, 0⟩).error = some "Request timed out." ∧
    (resolveAborted s ⟨cid, msg, 0⟩).pendingRetries = s.pendingRetries ∧
    (resolveAborted s ⟨cid, msg, 0⟩).messages = s.messages ∧
    (resolveFailure s r fk).messages = s.messages ∧
    (resolveFailure s r fk).pendingRetries = s.pendingRetries ∧
    (resolveFailure s r fk).error = some (failMessage fk) ∧
    (cancelAIResponse s).error = some "AI response cancelled." ∧
    (cancelAIResponse s).messages = s.messages := by
  refine ⟨?_, ?_, ?_, ?_, ?_, ?_, ?_, ?_, ?_, ?_, ?_⟩ <;>
    simp [resolveAborted, finallyReset, handleAbortError, resolveFailure,
      cancelAIResponse]

/-- C8 counterexample: on the navigation-bar guard's invalidation path, the
`token` entry survives — with `user = "a@b.c"` and `token = "tok123"` cached
and the profile call rejected, the guard clears `user`, redirects to login
with a notice, but leaves `token` in storage, so the two entries are not
cleared together. -/
theorem nav_guard_leaves_token :
    (navValidateSession ⟨some "a@b.c", some "tok123"⟩ ProfileResult.rejected).store.user
      = none ∧
    (navValidateSession ⟨some "a@b.c", some "tok123"⟩ ProfileResult.rejected).store.token
      = some "tok123" ∧
    (navValidateSession ⟨some "a@b.c", some "tok123"⟩ ProfileResult.rejected).navigatedTo
      = some "/login" ∧
    (navValidateSession ⟨some "a@b.c", some "tok123"⟩ ProfileResult.rejected).notice
      = some "Session Expired" := by
  refine ⟨?_, ?_, ?_, ?_⟩ <;> rfl

/-- C8 amended: on every session-invalidation path both guards clear the
cached `user` entry and redirect to login with a visible notice, but only the
app-shell guard also clears `token`; the navigation-bar guard leaves the
`token` entry in durable storage unchanged. -/
theorem session_invalidation_clearing (u : String) (tok : Option String) :
    (navValidateSession ⟨some u, tok⟩ ProfileResult.rejected).store = ⟨none, tok⟩ ∧
    (navValidateSession ⟨some u, tok⟩ ProfileResult.rejected).navigatedTo = some "/login" ∧
    (navValidateSession ⟨some u, tok⟩ ProfileResult.rejected).notice = some "Session Expired" ∧
    (navValidateSession ⟨some u, tok⟩ ProfileResult.networkError).store = ⟨none, tok⟩ ∧
    (navValidateSession ⟨some u, tok⟩ ProfileResult.networkError).navigatedTo = some "/login" ∧
    (navValidateSession ⟨some u, tok⟩ ProfileResult.networkError).notice = some "Session Error" ∧
    (appValidateSession ⟨some u, tok⟩ ProfileResult.rejected).store = ⟨none, none⟩ ∧
    (appValidateSession ⟨some u, tok⟩ ProfileResult.rejected).navigatedTo = some "/login" ∧
    (appValidateSession ⟨some u, tok⟩ ProfileResult.rejected).notice = some "Session Expired" ∧
    (appValidateSession ⟨some u, tok⟩ ProfileResult.networkError).store = ⟨none, none⟩ ∧
    (appValidateSession ⟨some u, tok⟩ ProfileResult.networkError).navigatedTo = some "/login" ∧
    (appValidateSession ⟨some u, tok⟩ ProfileResult.networkError).notice = some "Session Error" := by
  refine ⟨?_, ?_, ?_, ?_, ?_, ?_, ?_, ?_, ?_, ?_, ?_, ?_⟩ <;> rfl

lemma endDebate_ending (s : DebateSim) : (endDebate s).isDebateEnding = true := by
  unfold endDebate
  split_ifs with h
  · exact h
  · rfl

lemma endDebate_noreenter (s : DebateSim) (h : s.isDebateEnding = true) :
    endDebate s = s := by
  simp [endDebate, h]

/-- C3: session termination is idempotent.  A state already marked as ending
is left unchanged by `endDebate`; running `endDebate` twice equals running it
once; `endDebate` always marks the state as ending; and after the timer tick
that fires termination, a concurrent user click of "end debate" is a no-op. -/
theorem termination_idempotent (s : DebateSim) :
    endDebate { s with isDebateEnding := true } = { s with isDebateEnding := true } ∧
    (endDebate s).isDebateEnding = true ∧
    endDebate (endDebate s) = endDebate s ∧
    endDebate (tick { s with timerActive := true, timeRemaining := 3, isDebateEnding := false })
      = tick { s with timerActive := true, timeRemaining := 3, isDebateEnding := false } := by
  refine ⟨?_, endDebate_ending s, ?_, ?_⟩
  · exact endDebate_noreenter _ rfl
  · exact endDebate_noreenter _ (endDebate_ending s)
  · apply endDebate_noreenter
    simp [tick, endDebate_ending]

lemma append_space_ne_empty (r : String) : (r ++ " " : String) ≠ "" := by
  intro hcontra
  have h2 := congrArg String.length hcontra
  rw [String.length_append] at h2
  have hone : (" " : String).length = 1 := rfl
  have hzero : ("" : String).length = 0 := rfl
  omega

lemma onresult_accepts (s : DebateSim) (r : String) (ts : ℕ)
    (h : 3 ≤ (jsTrim (r ++ " ")).length) :
    (onresult s [(r, true)] ts).messages
      = s.messages ++ [⟨Speaker.user, jsTrim (r ++ " "), ts⟩] ∧
    (onresult s [(r, true)] ts).inFlight
      = s.inFlight ++ [⟨s.nextCid, jsTrim (r ++ " "), 2⟩] := by
  have hne : ¬ (r ++ " " : String) = "" := append_space_ne_empty r
  have hg : ¬ (jsTrim (r ++ " ")).length < 3 := by omega
  constructor <;>
    simp [onresult, addUserMessage, generateAIResponse, hne, hg, h]

lemma onresult_rejects (s : DebateSim) (r : String) (ts : ℕ)
    (h : (jsTrim (r ++ " ")).length < 3) :
    (onresult s [(r, true)] ts).messages = s.messages ∧
    (onresult s [(r, true)] ts).error
      = some "Speech input too short. Please provide a longer argument." := by
  have hne : ¬ (r ++ " " : String) = "" := append_space_ne_empty r
  have hg : ¬ 3 ≤ (jsTrim (r ++ " ")).length := by omega
  constructor <;> simp [onresult, hne, hg]

/-- C7: a finalized speech-recognition result whose trimmed length is at least
3 characters is appended to the transcript as a user message and issues the
AI-response request; a shorter final result is rejected with an error and not
appended.  Concretely, the length-2 result "hi" is rejected and the length-3
result "yes" is accepted. -/
theorem speech_final_result_threshold (s : DebateSim) (r : String) (ts : ℕ) :
    (3 ≤ (jsTrim (r ++ " ")).length →
      (onresult s [(r, true)] ts).messages
        = s.messages ++ [⟨Speaker.user, jsTrim (r ++ " "), ts⟩] ∧
      (onresult s [(r, true)] ts).inFlight
        = s.inFlight ++ [⟨s.nextCid, jsTrim (r ++ " "), 2⟩]) ∧
    ((jsTrim (r ++ " ")).length < 3 →
      (onresult s [(r, true)] ts).messages = s.messages ∧
      (onresult s [(r, true)] ts).error
        = some "Speech input too short. Please provide a longer argument.") ∧
    (onresult s [("hi", true)] ts).messages = s.messages ∧
    (onresult s [("hi", true)] ts).error
      = some "Speech input too short. Please provide a longer argument." ∧
    (onresult s [("yes", true)] ts).messages
      = s.messages ++ [⟨Speaker.user, "yes", ts⟩] ∧
    (onresult s [("yes", true)] ts).inFlight
      = s.inFlight ++ [⟨s.nextCid, "yes", 2⟩] := by
  have hyes : jsTrim ("yes" ++ " ") = "yes" := by decide
  refine ⟨onresult_accepts s r ts, onresult_rejects s r ts,
    (onresult_rejects s "hi" ts (by decide)).1,
    (onresult_rejects s "hi" ts (by decide)).2, ?_, ?_⟩
  · have := (onresult_accepts s "yes" ts (by decide)).1
    rwa [hyes] at this
  · have := (onresult_accepts s "yes" ts (by decide)).2
    rwa [hyes] at this

/-- Witness for C7 at a concrete accepted input. -/
theorem speech_final_result_threshold_witness :
    3 ≤ (jsTrim ("absolutely right" ++ " ")).length ∧
    ((onresult (initSim dsEx) [("absolutely right", true)] 4).messages
        = (initSim dsEx).messages
            ++ [⟨Speaker.user, jsTrim ("absolutely right" ++ " "), 4⟩] ∧
     (onresult (initSim dsEx) [("absolutely right", true)] 4).inFlight
        = (initSim dsEx).inFlight
            ++ [⟨(initSim dsEx).nextCid, jsTrim ("absolutely right" ++ " "), 2⟩]) :=
  ⟨by decide,
   (speech_final_result_threshold (initSim dsEx) "absolutely right" 4).1 (by decide)⟩

/-- C2: the feedback rating computed by `FeedbackPage.tsx` equals the
specification's formula — round(2 + (1 if messages > 5) + (1 if messages > 10)
+ (0.5 if words > 50) + (0.5 if words > 100)) clamped to [1,5] — and in
particular 0 messages / 0 words give rating 2 while 12 messages / 120 words
give rating 5. -/
theorem rating_matches_spec_formula (m w : ℕ) :
    finalRating m w = ratingSpec m w ∧ finalRating 0 0 = 2 ∧ finalRating 12 120 = 5 := by
  refine ⟨?_, ?_, ?_⟩
  · have h2 := jsRound_calculated_ge_two m w
    have h5 := jsRound_calculated_le_five m w
    rw [finalRating_eq_jsRound]
    unfold ratingSpec
    rw [show ((2 : ℚ) + (if m > 5 then 1 else 0) + (if m > 10 then 1 else 0)
        + (if w > 50 then (1 : ℚ)/2 else 0) + (if w > 100 then (1 : ℚ)/2 else 0))
        = calculatedRating m w from rfl]
    rw [if_neg (by omega), if_neg (by omega)]
  · norm_num [finalRating, jsRound, calculatedRating]
  · norm_num [finalRating, jsRound, calculatedRating]

/-- C9: the rating is monotone non-decreasing in the message count and the word
count, and always lies in [1,5]. -/
theorem rating_monotone_and_bounded (m m' w w' : ℕ) (hm : m ≤ m') (hw : w ≤ w') :
    finalRating m w ≤ finalRating m' w' ∧
    1 ≤ finalRating m w ∧ finalRating m w ≤ 5 := by
  refine ⟨?_, ?_, ?_⟩
  · have hc := calculatedRating_mono hm hw
    have : jsRound (calculatedRating m w) ≤ jsRound (calculatedRating m' w') := by
      unfold jsRound
      exact Int.floor_le_floor (by linarith)
    unfold finalRating
    exact min_le_min (le_refl 5) (max_le_max (le_refl 1) this)
  · unfold finalRating
    refine le_min (by norm_num) (le_max_left 1 _)
  · unfold finalRating
    exact min_le_left 5 _

/-- Witness for C9 at concrete inputs. -/
theorem rating_monotone_and_bounded_witness :
    (3 : ℕ) ≤ 7 ∧ (10 : ℕ) ≤ 60 ∧
    (finalRating 3 10 ≤ finalRating 7 60 ∧
     1 ≤ finalRating 3 10 ∧ finalRating 3 10 ≤ 5) :=
  ⟨by norm_num, by norm_num,
    rating_monotone_and_bounded 3 7 10 60 (by norm_num) (by norm_num)⟩

/-- C5 counterexample: on the transcript whose single user message is
`"a  b"` (two spaces), the code's `totalWords` — which counts the fields of a
split on the single space character, empty fields included — yields 3, while
the sum of whitespace-delimited token counts is 2, so the claim's equality
fails. -/
theorem totalWords_not_ws_token_count :
    totalWords [⟨Speaker.user, "a  b", 0⟩] = 3 ∧
    totalWordsSpec [⟨Speaker.user, "a  b", 0⟩] = 2 ∧
    totalWords [⟨Speaker.user, "a  b", 0⟩]
      ≠ totalWordsSpec [⟨Speaker.user, "a  b", 0⟩] := by
  refine ⟨?_, ?_, ?_⟩ <;> decide

/-- C5 amended: `totalWords` equals the sum, over user-speaker messages only,
of (number of space characters in the message + 1) — the field count of a
split on the single space character — and AI-speaker messages contribute
nothing. -/
theorem totalWords_space_field_count (msgs : List DebateMessage)
    (txt : String) (ts : ℕ) :
    totalWords msgs
      = ((userMessages msgs).map (fun m => m.message.data.count ' ' + 1)).sum ∧
    totalWords (msgs ++ [⟨Speaker.ai, txt, ts⟩]) = totalWords msgs := by
  constructor
  · unfold totalWords
    rw [foldl_add_splitSpaceLen]
    simp only [splitSpaceLen, jsSplit_length, Nat.zero_add]
  · unfold totalWords
    rw [userMessages_append_ai]

/-- C6: the performance summary's `totalMessages` counts user-speaker entries
only (not all entries); `avgResponseTime` times the user-message count gives
back the remaining time when there is at least one user message; and on a
transcript with no user messages (e.g. only AI entries) the guarded division
yields 0. -/
theorem performance_summary_user_stats (msgs : List DebateMessage) (t : ℚ)
    (ds : DebateState) :
    (performanceData msgs t ds).totalMessages
      = msgs.countP (fun m => m.speaker = Speaker.user) ∧
    (performanceData msgs t ds).avgResponseTime
        * ((performanceData msgs t ds).totalMessages : ℚ)
      = (if (performanceData msgs t ds).totalMessages = 0 then 0 else t) ∧
    (performanceData (msgs.filter (fun m => m.speaker = Speaker.ai)) t ds).avgResponseTime
      = 0 := by
  refine ⟨?_, ?_, ?_⟩
  · simp [performanceData, userMessages, List.countP_eq_length_filter]
  · by_cases h : (userMessages msgs).length = 0
    · simp [performanceData, h]
    · have hpos : 0 < (userMessages msgs).length := Nat.pos_of_ne_zero h
      have hne : ((userMessages msgs).length : ℚ) ≠ 0 := by
        exact_mod_cast h
      simp only [performanceData, if_pos hpos, if_neg h]
      exact div_mul_cancel₀ t hne
  · have hnil : userMessages (msgs.filter (fun m => m.speaker = Speaker.ai)) = [] := by
      unfold userMessages
      rw [List.filter_filter]
      apply List.filter_eq_nil_iff.mpr
      intro a _
      cases h : a.speaker <;> simp [h]
    simp [performanceData, hnil]

/-- C10: every computed rating is at least 2 (the base rating plus only
non-negative adjustments), so the lower clamp to 1 is a no-op and the one-star
category "Needs Improvement" and its encouragement message are unreachable
from a completed debate. -/
theorem rating_at_least_two_one_star_unreachable (m w : ℕ) :
    2 ≤ finalRating m w ∧
    max 1 (jsRound (calculatedRating m w)) = jsRound (calculatedRating m w) ∧
    getRatingCategory (finalRating m w) ≠ "Needs Improvement" ∧
    getRatingMessage (finalRating m w) ≠
      "Keep practicing! Every debate is a learning opportunity." := by
  have h2 : 2 ≤ finalRating m w := by
    rw [finalRating_eq_jsRound]; exact jsRound_calculated_ge_two m w
  have h5 : finalRating m w ≤ 5 := by
    rw [finalRating_eq_jsRound]; exact jsRound_calculated_le_five m w
  refine ⟨h2, max_eq_right (le_trans (by norm_num) (jsRound_calculated_ge_two m w)), ?_, ?_⟩
  · revert h2 h5
    generalize finalRating m w = r
    intro h2 h5
    interval_cases r <;> decide
  · revert h2 h5
    generalize finalRating m w = r
    intro h2 h5
    interval_cases r <;> decide

end VirtualDebate
